import Mathlib

/-!
Verification of the persistence and matching layer of the SAM chat-bot
(`bot/persistence/database_connector.py` and the `on_message` handler of
`bot/admin/admin.py`).

The connector methods are embedded as pure state transformers on `DBState`,
the record of all persisted rows.  Each method of `DatabaseConnector` opens a
connection scope, executes one or more statements against the working state,
and commits at the end iff every statement succeeded; an exception raised by a
statement propagates out of the scope before the commit line is reached, so
the durable state is then unchanged.  Read-only methods issue no commit and
therefore leave the durable state untouched.

The SQL text of the individual queries (`bot/persistence/queries.py`), the
`DatabaseManager` scope object and the `ModmailStatus` enumeration are part of
the repository but not among the sources being verified; their semantics is
modelled from the specification where needed, and each such definition is
marked `Modelled from the spec:` in its doc comment.
-/

/-- Modelled from the spec: the `ModmailStatus` closed enumeration
(`bot/moderation`), status values a modmail ticket can take. -/
inductive ModmailStatus where
  | Open : ModmailStatus
  | InProgress : ModmailStatus
  | Closed : ModmailStatus
deriving DecidableEq, Repr

/-- Error raised by the storage engine while executing a statement. -/
inductive SqlError where
  | uniqueConstraint : SqlError
  | other : SqlError
deriving DecidableEq, Repr

/-- One row of the `ModmailTicket` table: message id (primary key), author,
submission timestamp (kept abstract as a string), and status. -/
structure ModmailRow where
  msg_id : Nat
  author : String
  timestamp : String
  status : ModmailStatus
deriving DecidableEq, Repr

/-- One row of the `BotOnlyFlag` table: channel id (unique key) and the
boolean state; absence of a row means the flag is off. -/
structure BotOnlyRow where
  channel_id : Nat
  flag : Bool
deriving DecidableEq, Repr

/-- One row of the `GroupOffer` table: the offering user, the course, the
group the user offers, and the id of the announcement message (the insert
stores the placeholder "undefined", patched later by
`update_group_exchange_message_id`). -/
structure GroupOfferRow where
  user_id : String
  course : String
  offered_group : Int
  message_id : String
deriving DecidableEq, Repr

/-- One row of the `GroupRequest` table: the requesting user, the course, and
one group the user would accept. -/
structure GroupRequestRow where
  user_id : String
  course : String
  requested_group : Int
deriving DecidableEq, Repr

/-- The persisted state of the store: all rows of every table the verified
claims touch. -/
structure DBState where
  modmail : List ModmailRow
  botonly : List BotOnlyRow
  group_offers : List GroupOfferRow
  group_requests : List GroupRequestRow
deriving DecidableEq, Repr

/-- Result of a mutating connector method: the durable state after the scope
closed, and the error surfaced to the caller when a statement raised.  When
`err` is set the commit line was never reached, so `state` is the input
state. -/
structure WriteResult where
  state : DBState
  err : Option SqlError
deriving DecidableEq, Repr

/-- Modelled from the spec: semantics of `queries.INSERT_MODMAIL` — insert a
modmail row with implicit initial status `Open`; fails with a unique
constraint violation when the message id already exists. -/
def insertModmail (s : DBState) (m : Nat) (author ts : String) :
    Except SqlError DBState :=
  if s.modmail.any (fun row => decide (row.msg_id = m)) then
    .error .uniqueConstraint
  else
    .ok { s with modmail := s.modmail ++ [⟨m, author, ts, ModmailStatus.Open⟩] }

/-- `DatabaseConnector.add_modmail`: one insert then a commit inside one
scope; a constraint violation propagates and nothing is committed. -/
def add_modmail (s : DBState) (m : Nat) (author ts : String) : WriteResult :=
  match insertModmail s m author ts with
  | .error e => ⟨s, some e⟩
  | .ok p => ⟨p, none⟩

/-- `DatabaseConnector.get_modmail_status`: point lookup of the status of a
modmail by message id; no commit, so the durable state is returned
unchanged together with the value (`none` is the absent sentinel). -/
def get_modmail_status (s : DBState) (m : Nat) :
    DBState × Option ModmailStatus :=
  (s, match s.modmail.find? (fun row => decide (row.msg_id = m)) with
      | some row => some row.status
      | none => none)

/-- `DatabaseConnector.get_all_modmail_with_status`: filter scan returning the
message ids with the given status, or the absent sentinel when the result set
is empty; no commit. -/
def get_all_modmail_with_status (s : DBState) (st : ModmailStatus) :
    DBState × Option (List Nat) :=
  let rows := (s.modmail.filter (fun row => decide (row.status = st))).map
    (fun row => row.msg_id)
  (s, if rows.isEmpty then none else some rows)

/-- Modelled from the spec: semantics of `queries.INSERT_GROUP_OFFER` — one
active offer per (user, course); the message id column starts at the
placeholder "undefined". -/
def insertGroupOffer (s : DBState) (u c : String) (g : Int) :
    Except SqlError DBState :=
  if s.group_offers.any
      (fun o => decide (o.user_id = u) && decide (o.course = c)) then
    .error .uniqueConstraint
  else
    .ok { s with group_offers := s.group_offers ++ [⟨u, c, g, "undefined"⟩] }

/-- Modelled from the spec: semantics of `queries.INSERT_GROUP_REQUEST` — one
row per (user, course, requested group). -/
def insertGroupRequest (s : DBState) (u c : String) (g : Int) :
    Except SqlError DBState :=
  if s.group_requests.any
      (fun r => decide (r.user_id = u) && decide (r.course = c) &&
        decide (r.requested_group = g)) then
    .error .uniqueConstraint
  else
    .ok { s with group_requests := s.group_requests ++ [⟨u, c, g⟩] }

/-- The request-insert loop of `add_group_offer_and_requests`: insert one
request row per requested group, stopping at the first failure. -/
def insertGroupRequests (u c : String) : List Int → DBState →
    Except SqlError DBState
  | [], p => .ok p
  | g :: gs, p =>
    match insertGroupRequest p u c g with
    | .error e => .error e
    | .ok p2 => insertGroupRequests u c gs p2

/-- `DatabaseConnector.add_group_offer_and_requests`: inside one scope, insert
the offer row, then one request row per requested group, then commit.  Any
failing insert raises before the commit line, so the scope closes with the
durable state unchanged. -/
def add_group_offer_and_requests (s : DBState) (u c : String) (g : Int)
    (reqs : List Int) : WriteResult :=
  match insertGroupOffer s u c g with
  | .error e => ⟨s, some e⟩
  | .ok p =>
    match insertGroupRequests u c reqs p with
    | .error e => ⟨s, some e⟩
    | .ok p2 => ⟨p2, none⟩

/-- Modelled from the spec: the WHERE predicate of
`queries.FIND_GROUP_EXCHANGE_CANDIDATES` applied to one `GroupOffer` row — a
candidate is any offer row for the same course, excluding the author, whose
offered group is among the requester's requested groups, and whose user has a
`GroupRequest` row for that course equal to the requester's offered group.
The membership clause with an empty requested-group list matches nothing
(SQLite evaluates an empty IN list to false). -/
def matchesExchange (s : DBState) (author course : String) (g : Int)
    (reqs : List Int) (o : GroupOfferRow) : Bool :=
  decide (o.course = course) && !(decide (o.user_id = author)) &&
    decide (o.offered_group ∈ reqs) &&
    s.group_requests.any
      (fun r => decide (r.user_id = o.user_id) && decide (r.course = course) &&
        decide (r.requested_group = g))

/-- `DatabaseConnector.get_candidates_for_group_exchange`: executes the
dynamically built candidate query and returns the (user id, message id) rows,
or the absent sentinel `none` when the result set is empty; no commit, so the
durable state is returned unchanged. -/
def get_candidates_for_group_exchange (s : DBState) (author course : String)
    (g : Int) (reqs : List Int) : DBState × Option (List (String × String)) :=
  let rows := (s.group_offers.filter (matchesExchange s author course g reqs)).map
    (fun o => (o.user_id, o.message_id))
  (s, if rows.isEmpty then none else some rows)

/-- `DatabaseConnector.get_group_exchange_message`: point lookup of the
announcement message id of the offer of (user, course); no commit. -/
def get_group_exchange_message (s : DBState) (u c : String) :
    DBState × Option String :=
  (s, match s.group_offers.find?
        (fun o => decide (o.user_id = u) && decide (o.course = c)) with
      | some o => some o.message_id
      | none => none)

/-- `DatabaseConnector.remove_group_exchange_offer`: inside one scope, delete
the offer row and every request row of (user, course), then commit once, so
both deletes become durable together. -/
def remove_group_exchange_offer (s : DBState) (u c : String) : WriteResult :=
  ⟨{ s with
      group_offers := s.group_offers.filter
        (fun o => !(decide (o.user_id = u) && decide (o.course = c))),
      group_requests := s.group_requests.filter
        (fun r => !(decide (r.user_id = u) && decide (r.course = c))) },
    none⟩

/-- `DatabaseConnector.is_botonly`: point lookup of the bot-only flag of a
channel, defaulting to false when no row exists; no commit. -/
def is_botonly (s : DBState) (c : Nat) : DBState × Bool :=
  (s, match s.botonly.find? (fun r => decide (r.channel_id = c)) with
      | some r => r.flag
      | none => false)

/-- Modelled from the spec: upsert of the bot-only flag of a channel —
`activate_botonly` / `deactivate_botonly` have upsert semantics on the
unique channel key. -/
def upsertBotOnly (rows : List BotOnlyRow) (c : Nat) (b : Bool) :
    List BotOnlyRow :=
  if rows.any (fun r => decide (r.channel_id = c)) then
    rows.map (fun r => if r.channel_id = c then ⟨c, b⟩ else r)
  else
    rows ++ [⟨c, b⟩]

/-- `DatabaseConnector.activate_botonly`: set the bot-only flag of the
channel and commit. -/
def activate_botonly (s : DBState) (c : Nat) : WriteResult :=
  ⟨{ s with botonly := upsertBotOnly s.botonly c true }, none⟩

/-- `DatabaseConnector.deactivate_botonly`: clear the bot-only flag of the
channel and commit. -/
def deactivate_botonly (s : DBState) (c : Nat) : WriteResult :=
  ⟨{ s with botonly := upsertBotOnly s.botonly c false }, none⟩

/-- `DatabaseConnector.get_group_exchange_for_user`: Modelled from the spec:
returns all group exchange request rows of the user, or the absent sentinel
when there are none; no commit. -/
def get_group_exchange_for_user (s : DBState) (u : String) :
    DBState × Option (List GroupRequestRow) :=
  let rows := s.group_requests.filter (fun r => decide (r.user_id = u))
  (s, if rows.isEmpty then none else some rows)

/-- `DatabaseConnector.parse_sql_file` applied to the script text: split on
the literal semicolon. -/
def parse_sql_file (contents : String) : List String :=
  contents.splitOn ";"

/-- The statement loop of `DatabaseConnector.__init__`: execute each parsed
statement in order against the working state; a failing statement is logged
(recorded as `false` in the trace) and skipped, and execution continues with
the next statement.  `exec` is the storage engine's statement semantics,
kept abstract because the script statements are arbitrary SQL. -/
def runInitStatements (exec : String → DBState → Except SqlError DBState) :
    List String → DBState → DBState × List (String × Bool)
  | [], s => (s, [])
  | q :: qs, s =>
    match exec q s with
    | .ok s2 =>
      let r := runInitStatements exec qs s2
      (r.1, (q, true) :: r.2)
    | .error _ =>
      let r := runInitStatements exec qs s
      (r.1, (q, false) :: r.2)

/-- `DatabaseConnector.__init__` with an init script: parse the script and
run every statement inside one connection scope, returning the final state
and the trace of attempted statements with their success flag. -/
def initDatabaseConnector (exec : String → DBState → Except SqlError DBState)
    (script : String) (s : DBState) : DBState × List (String × Bool) :=
  runInitStatements exec (parse_sql_file script) s

/-- Outcome of the `on_message` handler: delete the incoming message, or do
nothing. -/
inductive MessageAction where
  | delete : MessageAction
  | ignore : MessageAction
deriving DecidableEq, Repr

/-- The `on_message` handler of the Admin cog (`bot/admin/admin.py`): return
without acting when the author is the bot itself; otherwise delete the
message iff its channel is flagged bot-only in the store. -/
def on_message (s : DBState) (botUser author channelId : Nat) : MessageAction :=
  if author = botUser then .ignore
  else if (is_botonly s channelId).2 then .delete
  else .ignore

/-- The value part of the candidate query before the empty-result check:
the (user id, message id) projection of the matching offer rows. -/
def candidateRows (s : DBState) (author course : String) (g : Int)
    (reqs : List Int) : List (String × String) :=
  (s.group_offers.filter (matchesExchange s author course g reqs)).map
    (fun o => (o.user_id, o.message_id))

theorem candidateRows_eq_getD (s : DBState) (author course : String) (g : Int)
    (reqs : List Int) :
    (get_candidates_for_group_exchange s author course g reqs).2.getD [] =
      candidateRows s author course g reqs := by
  unfold get_candidates_for_group_exchange candidateRows
  by_cases h :
      ((s.group_offers.filter (matchesExchange s author course g reqs)).map
        (fun o => (o.user_id, o.message_id))).isEmpty
  · simp only [h, if_pos, Option.getD]
    exact (List.isEmpty_iff.mp h).symm
  · simp only [h, if_neg, Option.getD]
    simp

/-- C3: with an empty requested-group collection the candidate query matches
nothing: for every store state, author, course and offered group the call
returns the absent sentinel `none` (the model is a total function, so no
exception is raised), and the durable state is unchanged. -/
theorem getCandidates_empty_requested_groups (s : DBState)
    (author course : String) (g : Int) :
    (get_candidates_for_group_exchange s author course g []).2 = none ∧
      (get_candidates_for_group_exchange s author course g []).1 = s := by
  constructor
  · unfold get_candidates_for_group_exchange
    have hf : s.group_offers.filter (matchesExchange s author course g []) = [] := by
      apply List.filter_eq_nil_iff.mpr
      intro o _
      unfold matchesExchange
      simp
    simp [hf]
  · rfl

/-- C9: every read operation of the store (`get_modmail_status`,
`get_all_modmail_with_status`, `get_candidates_for_group_exchange`,
`get_group_exchange_message`, `get_group_exchange_for_user`, `is_botonly`)
issues no commit, so the durable state after the call equals the input
state. -/
theorem read_operations_leave_state_unchanged (s : DBState) (m : Nat)
    (st : ModmailStatus) (author course u c : String) (g : Int)
    (reqs : List Int) (ch : Nat) :
    (get_modmail_status s m).1 = s ∧
      (get_all_modmail_with_status s st).1 = s ∧
      (get_candidates_for_group_exchange s author course g reqs).1 = s ∧
      (get_group_exchange_message s u c).1 = s ∧
      (get_group_exchange_for_user s u).1 = s ∧
      (is_botonly s ch).1 = s :=
  ⟨rfl, rfl, rfl, rfl, rfl, rfl⟩

/-- C1: characterization of the candidate query — a pair (u, m) is among the
returned rows (reading the absent sentinel as the empty row set) exactly when
some GroupOffer row of a user u other than the author exists for the course
with message id m, its offered group belongs to the requested groups, and
that user has a GroupRequest row for the course equal to the requester's
offered group.  In particular a user whose offer matches but whose requests
do not contain the requester's offered group is not returned. -/
theorem getCandidates_characterization (s : DBState) (author course : String)
    (g : Int) (reqs : List Int) (u m : String) :
    (u, m) ∈ (get_candidates_for_group_exchange s author course g reqs).2.getD [] ↔
      ∃ o ∈ s.group_offers, o.user_id = u ∧ o.message_id = m ∧
        o.course = course ∧ u ≠ author ∧ o.offered_group ∈ reqs ∧
        ∃ r ∈ s.group_requests, r.user_id = u ∧ r.course = course ∧
          r.requested_group = g := by
  rw [candidateRows_eq_getD]
  unfold candidateRows matchesExchange
  simp only [List.mem_map, List.mem_filter, Bool.and_eq_true,
    Bool.not_eq_true', decide_eq_true_eq, decide_eq_false_iff_not,
    List.any_eq_true, Prod.mk.injEq]
  constructor
  · rintro ⟨o, ⟨ho, ⟨⟨⟨hc, hna⟩, hg⟩, r, hr, ⟨hru, hrc⟩, hrg⟩⟩, huv, hmv⟩
    subst huv; subst hmv
    exact ⟨o, ho, rfl, rfl, hc, hna, hg, r, hr, hru, hrc, hrg⟩
  · rintro ⟨o, ho, hu, hm, hc, hna, hg, r, hr, hru, hrc, hrg⟩
    subst hu; subst hm
    exact ⟨o, ⟨ho, ⟨⟨⟨hc, hna⟩, hg⟩, r, hr, ⟨hru, hrc⟩, hrg⟩⟩, rfl, rfl⟩

theorem insertGroupRequests_ok (u c : String) :
    ∀ (gs : List Int) (p p2 : DBState),
      insertGroupRequests u c gs p = .ok p2 →
        p2.modmail = p.modmail ∧ p2.botonly = p.botonly ∧
          p2.group_offers = p.group_offers ∧
          p2.group_requests =
            p.group_requests ++ gs.map (fun n => ⟨u, c, n⟩) := by
  intro gs
  induction gs with
  | nil =>
    intro p p2 h
    unfold insertGroupRequests at h
    cases h
    simp
  | cons g gs ih =>
    intro p p2 h
    unfold insertGroupRequests at h
    cases hins : insertGroupRequest p u c g with
    | error e => rw [hins] at h; cases h
    | ok p1 =>
      rw [hins] at h
      obtain ⟨h1, h2, h3, h4⟩ := ih p1 p2 h
      unfold insertGroupRequest at hins
      split at hins
      · cases hins
      · cases hins
        refine ⟨h1, h2, h3, ?_⟩
        rw [h4]
        simp

/-- C2: atomicity of `add_group_offer_and_requests` — when no insert fails,
the durable state gains exactly one GroupOffer row (message id placeholder
"undefined") plus one GroupRequest row per requested group, in order, with
every other table unchanged; when any insert fails, the commit is never
reached and the durable state is exactly the input state (no partial
persistence). -/
theorem addGroupOfferAndRequests_atomic (s : DBState) (u c : String)
    (g : Int) (reqs : List Int) :
    (add_group_offer_and_requests s u c g reqs).state =
      if (add_group_offer_and_requests s u c g reqs).err = none then
        ⟨s.modmail, s.botonly, s.group_offers ++ [⟨u, c, g, "undefined"⟩],
          s.group_requests ++ reqs.map (fun n => ⟨u, c, n⟩)⟩
      else s := by
  unfold add_group_offer_and_requests
  cases hoff : insertGroupOffer s u c g with
  | error e => simp
  | ok p =>
    cases hreq : insertGroupRequests u c reqs p with
    | error e => simp [hreq]
    | ok p2 =>
      simp only [hreq]
      obtain ⟨h1, h2, h3, h4⟩ := insertGroupRequests_ok u c reqs p p2 hreq
      unfold insertGroupOffer at hoff
      split at hoff
      · cases hoff
      · cases hoff
        cases p2 with
        | mk pm pb po pr =>
          simp only at h1 h2 h3 h4
          simp [h1, h2, h3, h4]

/-- A value bound as a query parameter (the connector passes user ids and
courses as strings and group numbers as integers). -/
inductive SqlValue where
  | str : String → SqlValue
  | int : Int → SqlValue
deriving DecidableEq, Repr

/-- The `', '.join('?' for _ in requested_groups)` of
`get_candidates_for_group_exchange`: one placeholder per requested group,
joined by commas. -/
def strJoin (sep : String) : List String → String
  | [] => ""
  | [x] => x
  | x :: y :: t => x ++ sep ++ strJoin sep (y :: t)

/-- The membership-clause placeholder string built at call time. -/
def joinPlaceholders (reqs : List Int) : String :=
  strJoin ", " (reqs.map (fun _ => "?"))

/-- Number of placeholder characters in a piece of query text. -/
def countPlaceholders (q : String) : Nat :=
  q.data.count '?'

/-- Modelled from the spec: the template of
`queries.FIND_GROUP_EXCHANGE_CANDIDATES` — it binds author id, course and
offered group as three fixed placeholders and receives the dynamically built
membership clause; no caller-supplied value appears in the text. -/
def FIND_GROUP_EXCHANGE_CANDIDATES (membership : String) : String :=
  "SELECT DISTINCT offer.UserId, offer.MessageId " ++
    "FROM GroupOffer offer, GroupRequest request " ++
    "WHERE offer.UserId != ? AND offer.Course = ? " ++
    "AND offer.UserId = request.UserId AND request.Course = offer.Course " ++
    "AND request.RequestedGroupNr = ? AND offer.OfferedGroupNr IN (" ++
    membership ++ ")"

/-- The query text `get_candidates_for_group_exchange` executes, as built on
line 171 of `database_connector.py`: the template formatted with one
placeholder per requested group. -/
def candidateQueryText (reqs : List Int) : String :=
  FIND_GROUP_EXCHANGE_CANDIDATES (joinPlaceholders reqs)

/-- The bound-parameter list of `get_candidates_for_group_exchange`, as built
on line 169 of `database_connector.py`:
`[author_id, course, offered_group] + list(requested_groups)`. -/
def candidateQueryParams (author course : String) (g : Int)
    (reqs : List Int) : List SqlValue :=
  [SqlValue.str author, SqlValue.str course, SqlValue.int g] ++
    reqs.map SqlValue.int

theorem countPlaceholders_append (a b : String) :
    countPlaceholders (a ++ b) = countPlaceholders a + countPlaceholders b := by
  unfold countPlaceholders
  rw [String.data_append, List.count_append]

theorem map_const_placeholder (l : List Int) :
    l.map (fun _ => "?") = List.replicate l.length "?" := by
  induction l with
  | nil => rfl
  | cons x t ih => simp [List.replicate_succ, ih]

theorem countPlaceholders_join_replicate (n : Nat) :
    countPlaceholders (strJoin ", " (List.replicate n "?")) = n := by
  induction n with
  | zero => rfl
  | succ n ih =>
    cases n with
    | zero => rfl
    | succ m =>
      rw [List.replicate_succ, List.replicate_succ]
      rw [List.replicate_succ] at ih
      show countPlaceholders ("?" ++ ", " ++ strJoin ", " ("?" :: List.replicate m "?")) = m + 1 + 1
      rw [countPlaceholders_append, countPlaceholders_append, ih]
      have h1 : countPlaceholders "?" = 1 := by decide
      have h2 : countPlaceholders ", " = 0 := by decide
      rw [h1, h2]
      omega

/-- C5: dynamic construction of the candidate query — for a non-empty
requested-group list of length n, the membership clause holds exactly n
placeholders, the bound-parameter list holds exactly 3 + n values (author id,
course, offered group, then the requested groups), and the query text is a
function of n alone, so no caller-supplied value is interpolated into the
text. -/
theorem candidateQuery_dynamic_construction (author course : String) (g : Int)
    (reqs : List Int) (h : 0 < reqs.length) :
    countPlaceholders (joinPlaceholders reqs) = reqs.length ∧
      (candidateQueryParams author course g reqs).length = 3 + reqs.length ∧
      ∀ reqs2 : List Int, reqs2.length = reqs.length →
        candidateQueryText reqs2 = candidateQueryText reqs := by
  refine ⟨?_, ?_, ?_⟩
  · unfold joinPlaceholders
    rw [map_const_placeholder]
    exact countPlaceholders_join_replicate reqs.length
  · unfold candidateQueryParams
    simp only [List.length_append, List.length_cons, List.length_nil,
      List.length_map]
  · intro reqs2 hlen
    unfold candidateQueryText joinPlaceholders
    rw [map_const_placeholder, map_const_placeholder, hlen]

/-- Witness for C5 at a concrete call: two requested groups give two
membership placeholders, five bound parameters, and the same query text as
any other two-element request list. -/
theorem candidateQuery_dynamic_construction_witness :
    countPlaceholders (joinPlaceholders [2, 3]) = 2 ∧
      (candidateQueryParams "a" "X" 1 [2, 3]).length = 3 + 2 ∧
      candidateQueryText [5, 6] = candidateQueryText [2, 3] :=
  ⟨(candidateQuery_dynamic_construction "a" "X" 1 [2, 3] (by decide)).1,
    (candidateQuery_dynamic_construction "a" "X" 1 [2, 3] (by decide)).2.1,
    (candidateQuery_dynamic_construction "a" "X" 1 [2, 3] (by decide)).2.2
      [5, 6] (by decide)⟩

/-- C4: `remove_group_exchange_offer` deletes, in one commit scope, the
GroupOffer row and every GroupRequest row of the (user, course) pair — the
resulting durable state holds exactly the rows not belonging to that pair,
with the other tables untouched and no error surfaced — and a subsequent
`get_group_exchange_message` lookup for that pair returns the absent
sentinel. -/
theorem removeGroupExchangeOffer_complete (s : DBState) (u c : String) :
    (remove_group_exchange_offer s u c).err = none ∧
      (∀ o : GroupOfferRow,
        o ∈ (remove_group_exchange_offer s u c).state.group_offers ↔
          o ∈ s.group_offers ∧ ¬(o.user_id = u ∧ o.course = c)) ∧
      (∀ r : GroupRequestRow,
        r ∈ (remove_group_exchange_offer s u c).state.group_requests ↔
          r ∈ s.group_requests ∧ ¬(r.user_id = u ∧ r.course = c)) ∧
      (remove_group_exchange_offer s u c).state.modmail = s.modmail ∧
      (remove_group_exchange_offer s u c).state.botonly = s.botonly ∧
      (get_group_exchange_message
        (remove_group_exchange_offer s u c).state u c).2 = none := by
  refine ⟨rfl, ?_, ?_, rfl, rfl, ?_⟩
  · intro o
    unfold remove_group_exchange_offer
    simp only [List.mem_filter, Bool.not_eq_eq_eq_not, Bool.not_true,
      Bool.and_eq_false_imp, decide_eq_true_eq, decide_eq_false_iff_not]
    constructor
    · rintro ⟨ho, hp⟩
      refine ⟨ho, ?_⟩
      rintro ⟨h1, h2⟩
      exact hp h1 h2
    · rintro ⟨ho, hp⟩
      refine ⟨ho, ?_⟩
      intro h1 h2
      exact hp ⟨h1, h2⟩
  · intro r
    unfold remove_group_exchange_offer
    simp only [List.mem_filter, Bool.not_eq_eq_eq_not, Bool.not_true,
      Bool.and_eq_false_imp, decide_eq_true_eq, decide_eq_false_iff_not]
    constructor
    · rintro ⟨hr, hp⟩
      refine ⟨hr, ?_⟩
      rintro ⟨h1, h2⟩
      exact hp h1 h2
    · rintro ⟨hr, hp⟩
      refine ⟨hr, ?_⟩
      intro h1 h2
      exact hp ⟨h1, h2⟩
  · have hnone : (s.group_offers.filter
        (fun o => !(decide (o.user_id = u) && decide (o.course = c)))).find?
          (fun o => decide (o.user_id = u) && decide (o.course = c)) = none := by
      rw [List.find?_eq_none]
      intro x hx
      have hfalse := (List.mem_filter.mp hx).2
      simp only [Bool.not_eq_true'] at hfalse
      simp [hfalse]
    unfold get_group_exchange_message remove_group_exchange_offer
    simp only [hnone]

/-- Witness for C4 at a concrete store: after removing the offer of user u in
course X, the message lookup for (u, X) is absent and the offer row is no
longer present. -/
theorem removeGroupExchangeOffer_complete_witness :
    (get_group_exchange_message
      (remove_group_exchange_offer
        ⟨[], [], [⟨"u", "X", 1, "m1"⟩], [⟨"u", "X", 2⟩]⟩ "u" "X").state
      "u" "X").2 = none :=
  (removeGroupExchangeOffer_complete
    ⟨[], [], [⟨"u", "X", 1, "m1"⟩], [⟨"u", "X", 2⟩]⟩ "u" "X").2.2.2.2.2

/-- C6: the schema initializer parses the init script by splitting its text
on the literal semicolon and attempts every resulting statement in order
inside one connection scope: the trace of attempted statements equals the
split script even when arbitrary statements fail, so a failing statement
(recorded in the trace and logged) never prevents the remaining statements
from being attempted and never aborts construction. -/
theorem init_attempts_every_statement
    (exec : String → DBState → Except SqlError DBState) (script : String)
    (s : DBState) :
    ((initDatabaseConnector exec script s).2).map Prod.fst =
      script.splitOn ";" := by
  have key : ∀ (qs : List String) (t : DBState),
      ((runInitStatements exec qs t).2).map Prod.fst = qs := by
    intro qs
    induction qs with
    | nil => intro t; rfl
    | cons q qs ih =>
      intro t
      unfold runInitStatements
      cases hq : exec q t with
      | ok t2 => simp [hq, ih t2]
      | error e => simp [hq, ih t]
  exact key (parse_sql_file script) s

/-- C7: re-inserting an existing modmail id surfaces the unique-constraint
violation to the caller (the error is not swallowed), the durable state is
exactly the input state, and the status lookup of that message id is
unchanged by the failed call. -/
theorem addModmail_duplicate_rejected (s : DBState) (m : Nat) (a ts : String)
    (h : ∃ row ∈ s.modmail, row.msg_id = m) :
    (add_modmail s m a ts).err = some SqlError.uniqueConstraint ∧
      (add_modmail s m a ts).state = s ∧
      (get_modmail_status (add_modmail s m a ts).state m).2 =
        (get_modmail_status s m).2 := by
  have hb : s.modmail.any (fun row => decide (row.msg_id = m)) = true := by
    obtain ⟨row, hrow, he⟩ := h
    exact List.any_eq_true.mpr ⟨row, hrow, by simp [he]⟩
  have hmm : add_modmail s m a ts = ⟨s, some SqlError.uniqueConstraint⟩ := by
    unfold add_modmail insertModmail
    rw [if_pos hb]
  rw [hmm]
  exact ⟨rfl, rfl, rfl⟩

/-- Witness for C7 at a concrete store holding modmail 7: the duplicate
insert is rejected and the state is unchanged. -/
theorem addModmail_duplicate_rejected_witness :
    (add_modmail ⟨[⟨7, "x", "t0", ModmailStatus.Open⟩], [], [], []⟩
        7 "y" "t1").err = some SqlError.uniqueConstraint ∧
      (add_modmail ⟨[⟨7, "x", "t0", ModmailStatus.Open⟩], [], [], []⟩
        7 "y" "t1").state = ⟨[⟨7, "x", "t0", ModmailStatus.Open⟩], [], [], []⟩ ∧
      (get_modmail_status
        (add_modmail ⟨[⟨7, "x", "t0", ModmailStatus.Open⟩], [], [], []⟩
          7 "y" "t1").state 7).2 =
        (get_modmail_status
          ⟨[⟨7, "x", "t0", ModmailStatus.Open⟩], [], [], []⟩ 7).2 :=
  addModmail_duplicate_rejected
    ⟨[⟨7, "x", "t0", ModmailStatus.Open⟩], [], [], []⟩ 7 "y" "t1"
    ⟨⟨7, "x", "t0", ModmailStatus.Open⟩, List.mem_singleton.mpr rfl, rfl⟩

theorem find_upsert_map (c : Nat) (b : Bool) :
    ∀ rows : List BotOnlyRow,
      rows.any (fun r => decide (r.channel_id = c)) = true →
      (rows.map
        (fun r => if r.channel_id = c then (⟨c, b⟩ : BotOnlyRow) else r)).find?
        (fun r => decide (r.channel_id = c)) = some ⟨c, b⟩ := by
  intro rows
  induction rows with
  | nil => intro h; cases h
  | cons r rs ih =>
    intro h
    by_cases hr : r.channel_id = c
    · simp only [List.map_cons, if_pos hr]
      rw [List.find?_cons_of_pos]
      simp
    · have h2 : rs.any (fun r => decide (r.channel_id = c)) = true := by
        simp only [List.any_cons, Bool.or_eq_true, decide_eq_true_eq] at h
        rcases h with h | h
        · exact absurd h hr
        · exact h
      simp only [List.map_cons, if_neg hr]
      rw [List.find?_cons_of_neg]
      · exact ih h2
      · simp [hr]

theorem find_append_sentinel (c : Nat) (b : Bool) :
    ∀ rows : List BotOnlyRow,
      rows.any (fun r => decide (r.channel_id = c)) = false →
      (rows ++ [(⟨c, b⟩ : BotOnlyRow)]).find?
        (fun r => decide (r.channel_id = c)) = some ⟨c, b⟩ := by
  intro rows
  induction rows with
  | nil => intro _; simp [List.find?]
  | cons r rs ih =>
    intro h
    simp only [List.any_cons, Bool.or_eq_false_iff, decide_eq_false_iff_not] at h
    obtain ⟨h1, h2⟩ := h
    rw [List.cons_append, List.find?_cons_of_neg]
    · exact ih (by simpa using h2)
    · simp [h1]

theorem find_upsertBotOnly (rows : List BotOnlyRow) (c : Nat) (b : Bool) :
    (upsertBotOnly rows c b).find? (fun r => decide (r.channel_id = c)) =
      some ⟨c, b⟩ := by
  unfold upsertBotOnly
  split
  · exact find_upsert_map c b rows (by assumption)
  · rename_i h
    exact find_append_sentinel c b rows (Bool.eq_false_iff.mpr h)

/-- C8: the bot-only flag — for a channel with no bot-only row `is_botonly`
returns false; after `activate_botonly` it returns true; after
`deactivate_botonly` it returns false. -/
theorem botonly_default_activate_deactivate (s : DBState) (c : Nat) :
    ((∀ r ∈ s.botonly, r.channel_id ≠ c) → (is_botonly s c).2 = false) ∧
      (is_botonly (activate_botonly s c).state c).2 = true ∧
      (is_botonly (deactivate_botonly s c).state c).2 = false := by
  refine ⟨?_, ?_, ?_⟩
  · intro h
    have hnone : s.botonly.find? (fun r => decide (r.channel_id = c)) = none := by
      rw [List.find?_eq_none]
      intro x hx
      simp [h x hx]
    unfold is_botonly
    simp [hnone]
  · unfold is_botonly activate_botonly
    simp only [find_upsertBotOnly]
  · unfold is_botonly deactivate_botonly
    simp only [find_upsertBotOnly]

/-- Witness for C8 at channel 5 of an empty store: default false, true after
activation, false after deactivation. -/
theorem botonly_default_activate_deactivate_witness :
    (is_botonly ⟨[], [], [], []⟩ 5).2 = false ∧
      (is_botonly (activate_botonly ⟨[], [], [], []⟩ 5).state 5).2 = true ∧
      (is_botonly (deactivate_botonly ⟨[], [], [], []⟩ 5).state 5).2 = false :=
  ⟨(botonly_default_activate_deactivate ⟨[], [], [], []⟩ 5).1
      (by intro r hr; cases hr),
    (botonly_default_activate_deactivate ⟨[], [], [], []⟩ 5).2.1,
    (botonly_default_activate_deactivate ⟨[], [], [], []⟩ 5).2.2⟩

/-- C10: the `on_message` handler never deletes a message authored by the bot
itself — when the author is the bot it returns without acting — and a delete
is issued only when the author is not the bot and the message's channel is
flagged bot-only in the store. -/
theorem onMessage_no_self_delete (s : DBState)
    (botUser author channelId : Nat) :
    (author = botUser →
        on_message s botUser author channelId = MessageAction.ignore) ∧
      (on_message s botUser author channelId = MessageAction.delete →
        author ≠ botUser ∧ (is_botonly s channelId).2 = true) := by
  constructor
  · intro h
    unfold on_message
    rw [if_pos h]
  · intro h
    unfold on_message at h
    by_cases ha : author = botUser
    · rw [if_pos ha] at h
      cases h
    · rw [if_neg ha] at h
      refine ⟨ha, ?_⟩
      by_cases hb : (is_botonly s channelId).2 = true
      · exact hb
      · rw [if_neg hb] at h
        cases h

/-- Witness for C10: when the author is the bot itself the handler ignores
the message even in a bot-only channel. -/
theorem onMessage_no_self_delete_witness :
    on_message ⟨[], [⟨9, true⟩], [], []⟩ 1 1 9 = MessageAction.ignore :=
  (onMessage_no_self_delete ⟨[], [⟨9, true⟩], [], []⟩ 1 1 9).1 rfl
